import Mathlib

/-
Verification of the crypto-websockets market-data collector.

The Python sources under src/ are shallowly embedded here:

* src/collectors/websocket/coinbase_websocket.py  (namespace Feed)
* src/collectors/rest_api/collector.py            (namespace Rest)
* src/one_time_import.py shares fetch_quote/save_quote with collector.py

Modelling conventions:
* Python floats are modelled as rationals.
* json.loads (standard library) is modelled by its outcome: a message is an
  `Option WsMsg`, where `none` is a JSONDecodeError and `some m` is the parsed
  object restricted to the keys the handlers read.
* Python float(x) on a JSON value is `pyFloat`; on strings it is a decimal
  parser covering the numeric literals the feed sends, and it is `none`
  exactly when float() would raise.
* Exceptions that a handler can raise and that its caller catches are
  modelled with `Except Unit`.
* The persistence sink (Supabase) is an external collaborator; it is modelled
  from the insert contract of spec section 6: append-only tables, the trades
  table unique on the trade identifier, and a generic-failure oracle for
  backend faults.
-/

namespace Feed

/-- A JSON scalar as the handlers see it: a number, a string, null, or some
other shape (object, array, boolean). -/
inductive JVal where
  | jnum (q : ℚ)
  | jstr (s : String)
  | jnull
  | jother
deriving DecidableEq, Repr

/-- Value of a decimal digit character. -/
def digitVal (c : Char) : Option ℕ :=
  if c.isDigit then some (c.toNat - 48) else none

/-- Reads a run of decimal digits left to right, failing on a non-digit. -/
def digitsToNat (acc : ℕ) : List Char → Option ℕ
  | [] => some acc
  | c :: cs =>
    match digitVal c with
    | some d => digitsToNat (10 * acc + d) cs
    | none => none

/-- Model of Python float(s) on the decimal string literals the Coinbase feed
sends: optional sign, integer part, optional fractional part. Strings that
float() would reject (for example a word) yield `none`. -/
def parseDecimal (s : String) : Option ℚ :=
  let cs :=
    ((s.toList.dropWhile Char.isWhitespace).reverse.dropWhile
      Char.isWhitespace).reverse
  let sgn : ℤ := match cs with
    | '-' :: _ => -1
    | _ => 1
  let rest : List Char := match cs with
    | '-' :: t => t
    | '+' :: t => t
    | _ => cs
  match rest.splitOn '.' with
  | [ip] =>
    if ip.isEmpty then none
    else (digitsToNat 0 ip).map fun n => ((sgn * n : ℤ) : ℚ)
  | [ip, fp] =>
    if ip.isEmpty && fp.isEmpty then none
    else
      match digitsToNat 0 ip, digitsToNat 0 fp with
      | some n, some f =>
        some ((sgn : ℚ) * ((n : ℚ) + (f : ℚ) / (10 : ℚ) ^ fp.length))
      | _, _ => none
  | _ => none

/-- Model of Python float(v) for a JSON value v: numbers pass through, strings
go through the decimal parser, and null or structured values raise (`none`). -/
def pyFloat : JVal → Option ℚ
  | .jnum q => some q
  | .jstr s => parseDecimal s
  | .jnull => none
  | .jother => none

/-- An inbound feed frame after json.loads, restricted to the keys that
handle_message, handle_ticker and handle_match read. A `none` field is an
absent key. -/
structure WsMsg where
  type : Option String := none
  product_id : Option String := none
  best_bid : Option JVal := none
  best_ask : Option JVal := none
  price : Option JVal := none
  size : Option JVal := none
  side : Option String := none
  trade_id : Option JVal := none
  time : Option String := none
deriving DecidableEq, Repr

/-- The record stored in self.last_prices for one product by handle_ticker. -/
structure TickerEntry where
  bid : ℚ
  ask : ℚ
  last : ℚ
  spread : ℚ
  mid : ℚ
  time : Option String
deriving DecidableEq, Repr

/-- The mutable statistics of CoinbaseWebSocket: message_count,
message_types (a histogram keyed by the type field, which may be absent) and
last_prices (keyed by product_id, which may be absent). -/
structure WsState where
  message_count : ℕ
  message_types : List (Option String × ℕ)
  last_prices : List (Option String × TickerEntry)
deriving DecidableEq, Repr

/-- The state right after __init__: zero messages, empty histograms. -/
def initState : WsState := ⟨0, [], []⟩

/-- self.message_types.get(k, 0) + 1 written back: bump the histogram at k. -/
def bump : List (Option String × ℕ) → Option String → List (Option String × ℕ)
  | [], k => [(k, 1)]
  | (k1, v) :: rest, k =>
    if k1 = k then (k1, v + 1) :: rest else (k1, v) :: bump rest k

/-- self.message_types.get(k, 0): histogram lookup with default 0. -/
def getCount : List (Option String × ℕ) → Option String → ℕ
  | [], _ => 0
  | (k1, v) :: rest, k => if k1 = k then v else getCount rest k

/-- self.last_prices[k] = e: keyed update of the last-price map. -/
def setEntry :
    List (Option String × TickerEntry) → Option String → TickerEntry →
      List (Option String × TickerEntry)
  | [], k, e => [(k, e)]
  | (k1, e1) :: rest, k, e =>
    if k1 = k then (k, e) :: rest else (k1, e1) :: setEntry rest k e

/-- Lookup in the last-price map. -/
def getEntry :
    List (Option String × TickerEntry) → Option String → Option TickerEntry
  | [], _ => none
  | (k1, e1) :: rest, k => if k1 = k then some e1 else getEntry rest k

/-- Sum of the histogram values. -/
def sumCounts : List (Option String × ℕ) → ℕ
  | [] => 0
  | (_, v) :: rest => v + sumCounts rest

/-- The spread in basis points computed in the display branch of
handle_ticker (line 135): (ask - bid) / bid * 10000 if bid > 0 else 0. -/
def tickerSpreadBps (bid ask : ℚ) : ℚ :=
  if bid > 0 then (ask - bid) / bid * 10000 else 0

/-- CoinbaseWebSocket.handle_ticker (lines 115-138). Reads product_id,
best_bid, best_ask, price and time, converts the three prices with float()
(an unparseable value raises, modelled as `.error`), and stores the
last_prices entry. The spread and mid fields use the Python conditional
`ask - bid if bid and ask else 0`, that is: both sides nonzero. -/
def handle_ticker (s : WsState) (data : WsMsg) : Except Unit WsState :=
  match pyFloat (data.best_bid.getD (.jnum 0)),
        pyFloat (data.best_ask.getD (.jnum 0)),
        pyFloat (data.price.getD (.jnum 0)) with
  | some bid, some ask, some last_price =>
    .ok { s with
          last_prices := setEntry s.last_prices data.product_id
            { bid := bid, ask := ask, last := last_price,
              spread := if bid ≠ 0 ∧ ask ≠ 0 then ask - bid else 0,
              mid := if bid ≠ 0 ∧ ask ≠ 0 then (bid + ask) / 2 else 0,
              time := data.time } }
  | _, _, _ => .error ()

/-- Model of Python str.upper(): uppercase every character. -/
def pyUpper (s : String) : String :=
  String.mk (s.toList.map Char.toUpper)

/-- CoinbaseWebSocket.handle_match (lines 140-156). Converts price and size
with float(), computes trade_value = price * size, and when the value exceeds
10000 prints a line containing side.upper(). The result carries the side
string as displayed (`some` when the print happens); a missing side makes
side.upper() raise AttributeError, modelled as `.error`. It mutates no
state. -/
def handle_match (data : WsMsg) : Except Unit (Option String) :=
  match pyFloat (data.price.getD (.jnum 0)),
        pyFloat (data.size.getD (.jnum 0)) with
  | some price, some size =>
    if price * size > 10000 then
      match data.side with
      | some str => .ok (some (pyUpper str))
      | none => .error ()
    else .ok none
  | _, _ => .error ()

/-- CoinbaseWebSocket.handle_message (lines 86-113). A JSONDecodeError
(`none` input) is caught and leaves the state unchanged. Otherwise the
message counter and the per-type histogram are incremented, then the message
is dispatched on its type; any exception a sub-handler raises is caught, so
the counters keep their incremented values. -/
def handle_message (s : WsState) (raw : Option WsMsg) : WsState :=
  match raw with
  | none => s
  | some data =>
    let msg_type := data.type
    let s1 : WsState :=
      { s with
        message_count := s.message_count + 1,
        message_types := bump s.message_types msg_type }
    if msg_type = some "ticker" then
      match handle_ticker s1 data with
      | .ok s2 => s2
      | .error _ => s1
    else if msg_type = some "match" ∨ msg_type = some "last_match" then
      match handle_match data with
      | _ => s1
    else s1

/-- One outcome of the bounded receive `asyncio.wait_for(self.ws.recv(), 1.0)`
in receive_messages: a timeout, a received frame (already put through
json.loads), a ConnectionClosed, or another receive exception. -/
inductive RecvEvent where
  | timedOut
  | received (m : Option WsMsg)
  | closed
  | recvFailed
deriving DecidableEq, Repr

/-- Why receive_messages returned. -/
inductive ExitReason where
  | shutdown
  | connClosed
  | recvErr
deriving DecidableEq, Repr

/-- The timeout (in seconds) passed to asyncio.wait_for in receive_messages:
every blocked receive is bounded by one second. -/
def recvTimeout : ℚ := 1

/-- CoinbaseWebSocket.receive_messages (lines 158-179). Each iteration first
observes the global running flag (the Bool of the pair), then performs one
bounded receive whose outcome is the RecvEvent of the pair. A timeout
continues the loop, a received frame is handed to handle_message (which never
raises), ConnectionClosed and other receive errors break the loop. An
exhausted trace is the shutdown boundary. -/
def receive_messages :
    WsState → List (Bool × RecvEvent) → WsState × ExitReason
  | s, [] => (s, .shutdown)
  | s, (flag, ev) :: rest =>
    if flag then
      match ev with
      | .timedOut => receive_messages s rest
      | .received m => receive_messages (handle_message s m) rest
      | .closed => (s, .connClosed)
      | .recvFailed => (s, .recvErr)
    else (s, .shutdown)

/-- Actions of the main flow of the client, in order of occurrence. -/
inductive StreamAction where
  | connected
  | subscribed
  | disconnected
  | statsPrinted
deriving DecidableEq, Repr

/-- Modelled from the spec: CoinbaseWebSocket.run (lines 215-234) of the
source does not parse (the statement `if not await self.connect():` is split
across two physical lines, a SyntaxError), so the intended main flow is taken
from spec sections 4.6 and 8: connect, subscribe, drive the receive loop,
then close() and print the final statistics. Failure of connect aborts;
failure of subscribe disconnects and aborts. -/
def run_flow (connectOk subscribeOk : Bool) (s : WsState)
    (trace : List (Bool × RecvEvent)) : List StreamAction × WsState :=
  if !connectOk then ([], s)
  else if !subscribeOk then ([.connected, .disconnected], s)
  else
    ([.connected, .subscribed, .disconnected, .statsPrinted],
      (receive_messages s trace).1)

/-- The mid price of a stored ticker entry exactly as the code reports it:
handle_ticker always writes a numeric value under the mid key, so the
reported value is always present. -/
def reportedMid (e : TickerEntry) : Option ℚ := some e.mid

/-- The spread of a stored ticker entry exactly as the code reports it:
always a present numeric value. -/
def reportedSpread (e : TickerEntry) : Option ℚ := some e.spread

/-- The mid price in the words of the spec (sections 4.3 and 8): computed
only when both sides are positive, otherwise undefined/omitted. Stated only
to compare the reported value of the code against the spec. -/
def specTickerMid (bid ask : ℚ) : Option ℚ :=
  if 0 < bid ∧ 0 < ask then some ((bid + ask) / 2) else none

/-- The spread in the words of the spec (sections 4.3 and 8): computed only
when both sides are positive, otherwise undefined/omitted. -/
def specTickerSpread (bid ask : ℚ) : Option ℚ :=
  if 0 < bid ∧ 0 < ask then some (ask - bid) else none

end Feed

namespace Rest

/-- The last_trade object inside a quote payload, restricted to the keys
save_quote reads. uuid and taker_side are read with .get (absent gives
None/null); the other keys are read with [] (absent raises KeyError). -/
structure LastTrade where
  uuid : Option String := none
  price : Option ℚ := none
  size : Option ℚ := none
  taker_side : Option String := none
  time_exchange : Option String := none
  time_coinapi : Option String := none
deriving DecidableEq, Repr

/-- The result object of one getCurrentQuotes call, restricted to the keys
save_quote reads. Every price/size key is read with [] (absent raises
KeyError, caught by the outer handler of save_quote). A `none` last_trade
covers both an absent key and a null/empty value (the Python truthiness
test at line 84). -/
structure QuoteData where
  symbol_id : Option String := none
  bid_price : Option ℚ := none
  bid_size : Option ℚ := none
  ask_price : Option ℚ := none
  ask_size : Option ℚ := none
  time_exchange : Option String := none
  time_coinapi : Option String := none
  last_trade : Option LastTrade := none
deriving DecidableEq, Repr

/-- A row of the quotes table, as built by save_quote. -/
structure QuoteRow where
  symbol : String
  exchange : String
  symbol_id : String
  bid_price : ℚ
  bid_size : ℚ
  ask_price : ℚ
  ask_size : ℚ
  time_exchange : String
  time_coinapi : String
deriving DecidableEq, Repr

/-- A row of the trades table, as built by save_quote. -/
structure TradeRow where
  symbol : String
  exchange : String
  trade_uuid : Option String
  price : ℚ
  size : ℚ
  taker_side : Option String
  time_exchange : String
  time_coinapi : String
deriving DecidableEq, Repr

/-- The durable store: the two append-only tables of spec section 6. -/
structure DB where
  quotes : List QuoteRow
  trades : List TradeRow
deriving DecidableEq, Repr

/-- A sink insert failure. duplicateKey is the failure whose message contains
the word duplicate (the uniqueness violation on the trade identifier);
generic is every other failure. -/
inductive SinkErr where
  | duplicateKey
  | generic
deriving DecidableEq, Repr

/-- Does inserting a trade row with this identifier violate the uniqueness
constraint of the trades table? A null identifier never does. -/
def isDupTrade (db : DB) (u : Option String) : Bool :=
  match u with
  | none => false
  | some x => db.trades.any fun t => t.trade_uuid == some x

/-- Modelled from the spec (section 6, persistence sink — an external
collaborator): insert into the trades table, unique on the trade identifier.
Returns success (the row appended), the typed duplicate-key failure, or a
generic failure (the backendFail oracle stands for network/storage faults).
A failed insert appends nothing. -/
def insertTrade (db : DB) (r : TradeRow) (backendFail : Bool) :
    Except SinkErr DB :=
  if isDupTrade db r.trade_uuid then .error .duplicateKey
  else if backendFail then .error .generic
  else .ok { db with trades := db.trades ++ [r] }

/-- Modelled from the spec (section 6): insert into the append-only quotes
table; success appends the row, and the backendFail oracle stands for any
backend failure. -/
def insertQuote (db : DB) (r : QuoteRow) (backendFail : Bool) :
    Except SinkErr DB :=
  if backendFail then .error .generic
  else .ok { db with quotes := db.quotes ++ [r] }

/-- The stats dict of collector.py (lines 14-19), without the start time. -/
structure Stats where
  total_collections : ℕ := 0
  successful : ℕ := 0
  failed : ℕ := 0
deriving DecidableEq, Repr

/-- Everything observable about one save_quote call: the store and stats
afterwards, the returned Bool, whether the non-duplicate trade-error warning
was printed, and the (mid_price, spread) pair displayed on success. -/
structure SaveResult where
  db : DB
  stats : Stats
  ok : Bool
  tradeWarned : Bool
  shown : Option (ℚ × ℚ)
deriving DecidableEq, Repr

/-- save_quote of collector.py (lines 62-113; one_time_import.py lines 38-85
is identical up to the stats counters). Builds the quote row (a missing
required key raises, caught by the outer handler), inserts it, then — only
when the quote insert succeeded and a last_trade is present — builds and
inserts the trade row, swallowing a duplicate-key failure silently and
printing a warning on any other trade failure. Finally computes the displayed
mid price and spread and counts the call successful. Any exception outside
the inner trade try lands in the outer handler: failed is counted and False
returned, but rows already inserted stay. -/
def save_quote (db : DB) (stats : Stats) (symbol : String) (data : QuoteData)
    (qFail tFail : Bool) : SaveResult :=
  match data.symbol_id, data.bid_price, data.bid_size, data.ask_price,
        data.ask_size, data.time_exchange, data.time_coinapi with
  | some sid, some bp, some bs, some ap, some asz, some tex, some tco =>
    match insertQuote db ⟨symbol, "COINBASE", sid, bp, bs, ap, asz, tex, tco⟩
        qFail with
    | .error _ =>
      ⟨db, { stats with failed := stats.failed + 1 }, false, false, none⟩
    | .ok db1 =>
      let afterTrade : Option (DB × Bool) :=
        match data.last_trade with
        | none => some (db1, false)
        | some lt =>
          match lt.price, lt.size, lt.time_exchange, lt.time_coinapi with
          | some p, some sz, some lte, some ltc =>
            match insertTrade db1
                ⟨symbol, "COINBASE", lt.uuid, p, sz, lt.taker_side, lte, ltc⟩
                tFail with
            | .ok db2 => some (db2, false)
            | .error .duplicateKey => some (db1, false)
            | .error .generic => some (db1, true)
          | _, _, _, _ => none
      match afterTrade with
      | none =>
        ⟨db1, { stats with failed := stats.failed + 1 }, false, false, none⟩
      | some (db2, warned) =>
        ⟨db2, { stats with successful := stats.successful + 1 }, true, warned,
          some ((bp + ap) / 2, ap - bp)⟩
  | _, _, _, _, _, _, _ =>
    ⟨db, { stats with failed := stats.failed + 1 }, false, false, none⟩

/-- The params entry of the getCurrentQuotes request body. -/
structure RpcParam where
  symbol_id : String
deriving DecidableEq, Repr

/-- The JSON-RPC-style request body built by fetch_quote. -/
structure RpcPayload where
  jsonrpc : String
  id : ℕ
  method : String
  params : List RpcParam
deriving DecidableEq, Repr

/-- The payload of fetch_quote (collector.py lines 37-42, identical in
collector_async.py and one_time_import.py). -/
def mkPayload (symbol_id : String) : RpcPayload :=
  ⟨"2.0", 1, "v1/getCurrentQuotes", [⟨symbol_id⟩]⟩

/-- What one HTTPS POST can come back with: a transport-level failure
(network error, timeout, non-JSON body — everything that raises before the
error check), or a JSON body with an optional error envelope and an optional
result object. -/
inductive HttpOutcome where
  | transportFail
  | jsonBody (err : Option String) (result : Option QuoteData)
deriving DecidableEq, Repr

/-- The observable behaviour of one fetch_quote call: the requests actually
sent, as (payload, timeout in seconds) pairs, and the returned value. -/
structure FetchResult where
  sent : List (RpcPayload × ℕ)
  result : Option QuoteData
deriving DecidableEq, Repr

/-- fetch_quote of collector.py (lines 34-60). Sends exactly one POST with
the JSON-RPC payload and timeout=5, no retry. An error envelope in the body
raises, every exception is caught and None returned; otherwise the result
object (absent gives None). -/
def fetch_quote (symbol_id : String) (resp : HttpOutcome) : FetchResult :=
  let sent := [(mkPayload symbol_id, 5)]
  match resp with
  | .transportFail => ⟨sent, none⟩
  | .jsonBody (some _) _ => ⟨sent, none⟩
  | .jsonBody none r => ⟨sent, r⟩

/-- collect_all_prices of collector.py (lines 115-128). Bumps the collection
counter, then for each configured (symbol, id) pair fetches a quote and, when
the fetch returned data, saves it. The fetch outcome and sink faults per
symbol id are supplied by oracles. A failed fetch only skips that symbol. -/
def collect_all_prices (symbols : List (String × String)) (db : DB)
    (stats : Stats) (fetch : String → HttpOutcome) (qFail tFail : String → Bool) :
    DB × Stats :=
  symbols.foldl
    (fun acc item =>
      match (fetch_quote item.2 (fetch item.2)).result with
      | some data =>
        let r := save_quote acc.1 acc.2 item.1 data (qFail item.2) (tFail item.2)
        (r.db, r.stats)
      | none => acc)
    (db, { stats with total_collections := stats.total_collections + 1 })

end Rest

namespace Ex

/-- A well-formed ticker frame: bid 100, ask 101, last price 100. -/
def tick100 : Feed.WsMsg :=
  { type := some "ticker", product_id := some "BTC-USD",
    best_bid := some (.jnum 100), best_ask := some (.jnum 101),
    price := some (.jnum 100), time := some "2024-01-01T00:00:00Z" }

/-- A ticker frame with an absent best_bid: float(0) gives bid 0. -/
def tickZero : Feed.WsMsg :=
  { type := some "ticker", product_id := some "BTC-USD",
    best_ask := some (.jnum 101), price := some (.jnum 100) }

/-- A ticker frame whose best_bid is a non-numeric string: float() raises. -/
def tickBad : Feed.WsMsg :=
  { type := some "ticker", product_id := some "BTC-USD",
    best_bid := some (.jstr "abc"), best_ask := some (.jnum 101),
    price := some (.jnum 100) }

/-- A frame with an unrecognized discriminant. -/
def bogus : Feed.WsMsg := { type := some "bogus" }

/-- A match frame worth 50000 with no side key: the display branch raises on
side.upper(). -/
def matchNoSide : Feed.WsMsg :=
  { type := some "match", product_id := some "BTC-USD",
    price := some (.jnum 50000), size := some (.jnum 1),
    trade_id := some (.jnum 1) }

/-- A match frame worth 50000 whose side is neither buy nor sell. -/
def matchFoo : Feed.WsMsg :=
  { type := some "match", product_id := some "BTC-USD",
    price := some (.jnum 50000), size := some (.jnum 1),
    side := some "foo", trade_id := some (.jnum 2) }

/-- A quote payload for BTC with bid 100 and ask 101 and no last trade. -/
def quoteA : Rest.QuoteData :=
  { symbol_id := some "A", bid_price := some 100, bid_size := some 1,
    ask_price := some 101, ask_size := some 2,
    time_exchange := some "t1", time_coinapi := some "t2" }

/-- A last trade with identifier t1. -/
def lastT1 : Rest.LastTrade :=
  { uuid := some "t1", price := some 5, size := some 5,
    taker_side := some "buy", time_exchange := some "x",
    time_coinapi := some "y" }

/-- A quote payload for BTC carrying the last trade t1. -/
def quoteT : Rest.QuoteData := { quoteA with last_trade := some lastT1 }

/-- A store that already holds the trade row with identifier t1. -/
def dbT : Rest.DB :=
  ⟨[], [⟨"BTC", "COINBASE", some "t1", 5, 5, some "buy", "x", "y"⟩]⟩

/-- The fetch oracle of the poll-cycle scenario: symbol id A answers with the
BTC quote, every other call (in particular B) times out. -/
def fetchC3 : String → Rest.HttpOutcome := fun i =>
  if i = "A" then .jsonBody none (some quoteA) else .transportFail

/-- The quote row the scenario saves for BTC. -/
def btcRow : Rest.QuoteRow := ⟨"BTC", "COINBASE", "A", 100, 1, 101, 2, "t1", "t2"⟩

end Ex

/-- Bumping a histogram key adds one to the sum of its values. -/
theorem sumCounts_bump (h : List (Option String × ℕ)) (k : Option String) :
    Feed.sumCounts (Feed.bump h k) = Feed.sumCounts h + 1 := by
  induction h with
  | nil => rfl
  | cons p rest ih =>
    obtain ⟨k1, v⟩ := p
    by_cases hk : k1 = k
    · simp [Feed.bump, hk, Feed.sumCounts]
      omega
    · simp [Feed.bump, hk, Feed.sumCounts, ih]
      omega

/-- A successful handle_ticker only rewrites last_prices: the counters keep
their values. -/
theorem handle_ticker_counters {s s2 : Feed.WsState} {data : Feed.WsMsg}
    (h : Feed.handle_ticker s data = .ok s2) :
    s2.message_count = s.message_count ∧ s2.message_types = s.message_types := by
  unfold Feed.handle_ticker at h
  split at h
  · cases h
    exact ⟨rfl, rfl⟩
  · cases h

/-- handle_message on an unparseable frame is the identity. -/
theorem handle_message_none (s : Feed.WsState) :
    Feed.handle_message s none = s := rfl

/-- handle_message on a parsed frame increments the total counter once and
bumps the per-type histogram once, whatever the dispatch does. -/
theorem handle_message_counters (s : Feed.WsState) (m : Feed.WsMsg) :
    (Feed.handle_message s (some m)).message_count = s.message_count + 1 ∧
    (Feed.handle_message s (some m)).message_types =
      Feed.bump s.message_types m.type := by
  unfold Feed.handle_message
  by_cases ht : m.type = some "ticker"
  · simp only [ht, if_pos rfl]
    rcases hr : Feed.handle_ticker
        { s with message_count := s.message_count + 1,
                 message_types := Feed.bump s.message_types (some "ticker") }
        m with s2 | s2
    · simp [hr]
    · have := handle_ticker_counters hr
      simp [hr, this.1, this.2]
  · by_cases hm : m.type = some "match" ∨ m.type = some "last_match"
    · simp [ht, hm]
    · simp [ht, hm]

/-- handle_message preserves the equality of the total counter with the sum
of the per-type histogram. -/
theorem handle_message_invariant (s : Feed.WsState) (m : Option Feed.WsMsg)
    (h : s.message_count = Feed.sumCounts s.message_types) :
    (Feed.handle_message s m).message_count =
      Feed.sumCounts (Feed.handle_message s m).message_types := by
  cases m with
  | none => exact h
  | some data =>
    have hc := handle_message_counters s data
    rw [hc.1, hc.2, sumCounts_bump, h]

/-- The receive loop preserves the counter invariant. -/
theorem receive_messages_invariant (tr : List (Bool × Feed.RecvEvent)) :
    ∀ s : Feed.WsState,
      s.message_count = Feed.sumCounts s.message_types →
      (Feed.receive_messages s tr).1.message_count =
        Feed.sumCounts (Feed.receive_messages s tr).1.message_types := by
  induction tr with
  | nil => intro s h; exact h
  | cons p rest ih =>
    intro s h
    obtain ⟨flag, ev⟩ := p
    cases flag with
    | false => exact h
    | true =>
      cases ev with
      | timedOut => exact ih s h
      | received m => exact ih _ (handle_message_invariant s m h)
      | closed => exact h
      | recvFailed => exact h

/-- C1: for every ticker frame whose bid, ask and last price parse and with
bid and ask positive, handle_ticker stores exactly mid = (bid + ask) / 2 and
spread = ask - bid, the displayed basis-point spread is
(ask - bid) / bid * 10000, and save_quote displays exactly
mid = (bid + ask) / 2 and spread = ask - bid whenever it succeeds. -/
theorem C1_derived_fields :
    (∀ (s : Feed.WsState) (data : Feed.WsMsg) (bid ask lp : ℚ),
      Feed.pyFloat (data.best_bid.getD (.jnum 0)) = some bid →
      Feed.pyFloat (data.best_ask.getD (.jnum 0)) = some ask →
      Feed.pyFloat (data.price.getD (.jnum 0)) = some lp →
      0 < bid → 0 < ask →
      Feed.handle_ticker s data = .ok { s with
        last_prices := Feed.setEntry s.last_prices data.product_id
          ⟨bid, ask, lp, ask - bid, (bid + ask) / 2, data.time⟩ } ∧
      Feed.tickerSpreadBps bid ask = (ask - bid) / bid * 10000)
    ∧
    (∀ (db : Rest.DB) (stats : Rest.Stats) (sym sid : String)
      (bp bs ap asz : ℚ) (tex tco : String) (lt : Option Rest.LastTrade)
      (qf tf : Bool),
      (Rest.save_quote db stats sym
        ⟨some sid, some bp, some bs, some ap, some asz, some tex, some tco, lt⟩
        qf tf).ok = true →
      (Rest.save_quote db stats sym
        ⟨some sid, some bp, some bs, some ap, some asz, some tex, some tco, lt⟩
        qf tf).shown = some ((bp + ap) / 2, ap - bp)) := by
  constructor
  · intro s data bid ask lp h1 h2 h3 hb ha
    constructor
    · unfold Feed.handle_ticker
      rw [h1, h2, h3]
      simp [ne_of_gt hb, ne_of_gt ha]
    · simp [Feed.tickerSpreadBps, hb]
  · intro db stats sym sid bp bs ap asz tex tco lt qf tf hok
    unfold Rest.save_quote at hok ⊢
    cases qf <;> rcases lt with _ | ⟨u, p, sz, ts, lte, ltc⟩ <;>
      simp [Rest.insertQuote, Rest.insertTrade] at hok ⊢ <;>
      rcases p with _ | p <;> rcases sz with _ | sz <;>
      rcases lte with _ | lte <;> rcases ltc with _ | ltc <;>
      simp_all <;> split <;> simp_all

/-- C1 witness: the concrete ticker frame with bid 100, ask 101, and a
concrete successful save with bid 100 and ask 101. -/
theorem C1_derived_fields_witness :
    (Feed.handle_ticker Feed.initState Ex.tick100 = .ok { Feed.initState with
      last_prices := Feed.setEntry Feed.initState.last_prices Ex.tick100.product_id
        ⟨100, 101, 100, 101 - 100, (100 + 101) / 2, Ex.tick100.time⟩ } ∧
     Feed.tickerSpreadBps 100 101 = (101 - 100) / 100 * 10000) ∧
    (Rest.save_quote ⟨[], []⟩ ⟨0, 0, 0⟩ "BTC"
      ⟨some "A", some 100, some 1, some 101, some 2, some "t1", some "t2", none⟩
      false false).shown = some ((100 + 101) / 2, 101 - 100) :=
  ⟨C1_derived_fields.1 Feed.initState Ex.tick100 100 101 100 rfl rfl rfl
      (by norm_num) (by norm_num),
   C1_derived_fields.2 ⟨[], []⟩ ⟨0, 0, 0⟩ "BTC" "A" 100 1 101 2 "t1" "t2" none
      false false rfl⟩

/-- C4 counterexample: for the concrete ticker frame with bid 0 and ask 101
the code does not omit mid and spread — it stores them as present numeric
zeros, while the spec says they are undefined/omitted. -/
theorem C4_zero_side_counterexample :
    Feed.handle_ticker Feed.initState Ex.tickZero =
      .ok ⟨0, [], [(some "BTC-USD", ⟨0, 101, 100, 0, 0, none⟩)]⟩ ∧
    Feed.reportedMid ⟨0, 101, 100, 0, 0, none⟩ = some 0 ∧
    Feed.reportedSpread ⟨0, 101, 100, 0, 0, none⟩ = some 0 ∧
    Feed.specTickerMid 0 101 = none ∧
    Feed.specTickerSpread 0 101 = none ∧
    Feed.reportedMid ⟨0, 101, 100, 0, 0, none⟩ ≠ Feed.specTickerMid 0 101 := by
  refine ⟨rfl, rfl, rfl, ?_, ?_, ?_⟩ <;>
    simp [Feed.specTickerMid, Feed.specTickerSpread, Feed.reportedMid]

/-- C4 amended: for every ticker frame whose sides parse and where bid = 0 or
ask = 0, processing succeeds (no division-by-zero failure) and the stored mid
and spread are the sentinel 0, not computed from the formulas; the
basis-point spread is computed only under the bid > 0 guard and is 0 when
bid = 0. -/
theorem C4_zero_side_sentinel (s : Feed.WsState) (data : Feed.WsMsg)
    (bid ask lp : ℚ)
    (h1 : Feed.pyFloat (data.best_bid.getD (.jnum 0)) = some bid)
    (h2 : Feed.pyFloat (data.best_ask.getD (.jnum 0)) = some ask)
    (h3 : Feed.pyFloat (data.price.getD (.jnum 0)) = some lp)
    (h0 : bid = 0 ∨ ask = 0) :
    Feed.handle_ticker s data = .ok { s with
      last_prices := Feed.setEntry s.last_prices data.product_id
        ⟨bid, ask, lp, 0, 0, data.time⟩ } ∧
    (bid = 0 → Feed.tickerSpreadBps bid ask = 0) := by
  constructor
  · unfold Feed.handle_ticker
    rw [h1, h2, h3]
    rcases h0 with h0 | h0 <;> subst h0 <;> simp
  · intro hb
    subst hb
    simp [Feed.tickerSpreadBps]

/-- C4 witness: the concrete ticker frame with absent best_bid (bid 0). -/
theorem C4_zero_side_sentinel_witness :
    Feed.handle_ticker Feed.initState Ex.tickZero = .ok { Feed.initState with
      last_prices := Feed.setEntry Feed.initState.last_prices Ex.tickZero.product_id
        ⟨0, 101, 100, 0, 0, Ex.tickZero.time⟩ } ∧
    ((0 : ℚ) = 0 → Feed.tickerSpreadBps 0 101 = 0) :=
  C4_zero_side_sentinel Feed.initState Ex.tickZero 0 101 100 rfl rfl rfl (.inl rfl)

/-- C8 counterexample: the match frame worth more than 10000 with a missing
side makes handle_match raise (side.upper() on None), and a side outside
buy/sell is displayed verbatim uppercased, not as unknown. -/
theorem C8_side_counterexample :
    Feed.handle_match Ex.matchNoSide = .error () ∧
    Feed.handle_match Ex.matchFoo = .ok (some "FOO") ∧
    some "FOO" ≠ some "unknown" := by
  refine ⟨?_, ?_, by decide⟩
  · norm_num [Feed.handle_match, Feed.pyFloat, Ex.matchNoSide]
  · norm_num [Feed.handle_match, Feed.pyFloat, Ex.matchFoo, Feed.pyUpper]
    decide

/-- C8 amended: for every match frame whose price and size parse, a present
side — whatever its value — is preserved verbatim (displayed uppercased when
the trade value exceeds 10000) and never rejected; a missing side succeeds
when the value is at most 10000 but raises inside handle_match when it
exceeds 10000; that exception is caught by handle_message, which still
returns the counter-bumped state, so it is never fatal to the loop. -/
theorem C8_side_handling (data : Feed.WsMsg) (p sz : ℚ)
    (hp : Feed.pyFloat (data.price.getD (.jnum 0)) = some p)
    (hs : Feed.pyFloat (data.size.getD (.jnum 0)) = some sz) :
    (∀ str, data.side = some str →
      Feed.handle_match data =
        .ok (if p * sz > 10000 then some (Feed.pyUpper str) else none)) ∧
    (data.side = none → ¬(p * sz > 10000) → Feed.handle_match data = .ok none) ∧
    (data.side = none → p * sz > 10000 → Feed.handle_match data = .error ()) ∧
    (∀ s : Feed.WsState,
      data.type = some "match" ∨ data.type = some "last_match" →
      Feed.handle_message s (some data) =
        { s with message_count := s.message_count + 1,
                 message_types := Feed.bump s.message_types data.type }) := by
  refine ⟨?_, ?_, ?_, ?_⟩
  · intro str hside
    unfold Feed.handle_match
    rw [hp, hs, hside]
    by_cases hv : p * sz > 10000 <;> simp [hv]
  · intro hside hv
    unfold Feed.handle_match
    rw [hp, hs, hside]
    simp [hv]
  · intro hside hv
    unfold Feed.handle_match
    rw [hp, hs, hside]
    simp [hv]
  · intro s hty
    rcases hty with hty | hty <;> simp [Feed.handle_message, hty]

/-- C8 witness: the match frame with side foo, value 50000. -/
theorem C8_side_handling_witness :
    Feed.handle_match Ex.matchFoo =
      .ok (if (50000 : ℚ) * 1 > 10000 then some (Feed.pyUpper "foo") else none) :=
  (C8_side_handling Ex.matchFoo 50000 1 rfl rfl).1 "foo" rfl

/-- C5 counterexample: processing an unparseable frame leaves the state —
every counter the client has — completely unchanged, so the message is not
counted as anything, let alone as a schema failure; and a frame with an
unrecognized discriminant is counted as an ordinary message under its own
type in the histogram, not as a failure. There is no schema-failure counter
in the state. -/
theorem C5_schema_counter_counterexample :
    Feed.handle_message Feed.initState none = Feed.initState ∧
    Feed.handle_message Feed.initState (some Ex.bogus) =
      ⟨1, [(some "bogus", 1)], []⟩ := ⟨rfl, rfl⟩

/-- C5 amended: every malformed inbound message is skipped and is never
fatal: an unparseable payload leaves the state unchanged; a frame with an
unrecognized discriminant, and a ticker whose required numeric field does not
parse, are counted as ordinary messages (total and per-type counters) and
change nothing else; and the receive loop never exits because of a received
message — only a closed connection or a receive error ends it. -/
theorem C5_malformed_skipped :
    (∀ s : Feed.WsState, Feed.handle_message s none = s) ∧
    (∀ (s : Feed.WsState) (m : Feed.WsMsg),
      m.type ≠ some "ticker" → m.type ≠ some "match" →
      m.type ≠ some "last_match" →
      Feed.handle_message s (some m) =
        { s with message_count := s.message_count + 1,
                 message_types := Feed.bump s.message_types m.type }) ∧
    (∀ (s : Feed.WsState) (m : Feed.WsMsg),
      m.type = some "ticker" →
      Feed.pyFloat (m.best_bid.getD (.jnum 0)) = none →
      Feed.handle_message s (some m) =
        { s with message_count := s.message_count + 1,
                 message_types := Feed.bump s.message_types m.type }) ∧
    (∀ (s : Feed.WsState) (tr : List (Bool × Feed.RecvEvent)),
      (∀ p ∈ tr, p.2 ≠ Feed.RecvEvent.closed ∧ p.2 ≠ Feed.RecvEvent.recvFailed) →
      (Feed.receive_messages s tr).2 = Feed.ExitReason.shutdown) := by
  refine ⟨fun s => rfl, ?_, ?_, ?_⟩
  · intro s m h1 h2 h3
    simp [Feed.handle_message, h1, h2, h3]
  · intro s m hty hbad
    simp only [Feed.handle_message, hty]
    have : Feed.handle_ticker
        { s with message_count := s.message_count + 1,
                 message_types := Feed.bump s.message_types m.type } m =
        .error () := by
      unfold Feed.handle_ticker
      rw [hbad]
    rw [hty] at this
    simp [this]
  · intro s tr
    induction tr generalizing s with
    | nil => intro _; rfl
    | cons p rest ih =>
      intro hp
      obtain ⟨flag, ev⟩ := p
      have hev := hp (flag, ev) (List.mem_cons_self _ _)
      cases flag with
      | false => rfl
      | true =>
        cases ev with
        | timedOut =>
          exact ih s fun q hq => hp q (List.mem_cons_of_mem _ hq)
        | received m =>
          exact ih _ fun q hq => hp q (List.mem_cons_of_mem _ hq)
        | closed => exact absurd rfl hev.1
        | recvFailed => exact absurd rfl hev.2

/-- C5 witness: the unrecognized discriminant bogus, the ticker with a
non-numeric best_bid, and a trace containing both, which the loop processes
to its end. -/
theorem C5_malformed_skipped_witness :
    Feed.handle_message Feed.initState (some Ex.bogus) =
      { Feed.initState with
        message_count := Feed.initState.message_count + 1,
        message_types := Feed.bump Feed.initState.message_types Ex.bogus.type } ∧
    Feed.handle_message Feed.initState (some Ex.tickBad) =
      { Feed.initState with
        message_count := Feed.initState.message_count + 1,
        message_types := Feed.bump Feed.initState.message_types Ex.tickBad.type } ∧
    (Feed.receive_messages Feed.initState
      [(true, .received none), (true, .received (some Ex.bogus)),
       (true, .received (some Ex.tickBad))]).2 = Feed.ExitReason.shutdown :=
  ⟨C5_malformed_skipped.2.1 Feed.initState Ex.bogus (by decide) (by decide)
      (by decide),
   C5_malformed_skipped.2.2.1 Feed.initState Ex.tickBad rfl (by decide),
   C5_malformed_skipped.2.2.2 Feed.initState
      [(true, .received none), (true, .received (some Ex.bogus)),
       (true, .received (some Ex.tickBad))] (by decide)⟩

/-- C10: along every receive trace the total message counter equals the sum
of the per-type counters; the two are incremented together exactly once per
parsed message, and a message that fails JSON parsing increments neither. -/
theorem C10_counter_invariant :
    (∀ tr : List (Bool × Feed.RecvEvent),
      (Feed.receive_messages Feed.initState tr).1.message_count =
        Feed.sumCounts (Feed.receive_messages Feed.initState tr).1.message_types) ∧
    (∀ (s : Feed.WsState) (m : Feed.WsMsg),
      (Feed.handle_message s (some m)).message_count = s.message_count + 1 ∧
      Feed.sumCounts (Feed.handle_message s (some m)).message_types =
        Feed.sumCounts s.message_types + 1) ∧
    (∀ s : Feed.WsState, Feed.handle_message s none = s) := by
  refine ⟨?_, ?_, fun s => rfl⟩
  · intro tr
    exact receive_messages_invariant tr Feed.initState rfl
  · intro s m
    have hc := handle_message_counters s m
    exact ⟨hc.1, by rw [hc.2, sumCounts_bump]⟩

/-- C7: in the loop model, a shutdown flag observed false makes
receive_messages return immediately — the trace after the flag is never
consumed, so at most the one in-flight bounded receive (recvTimeout = 1
second) stands between the signal and the exit — and the main flow then
disconnects and prints the final statistics. The run() of the source cannot
exhibit this: it fails to parse (SyntaxError at the split
`if not await / self.connect():` statement), so run_flow models the intended
flow from the spec. -/
theorem C7_shutdown_bounded (s : Feed.WsState) (ev : Feed.RecvEvent)
    (rest : List (Bool × Feed.RecvEvent)) :
    Feed.receive_messages s ((false, ev) :: rest) = (s, .shutdown) ∧
    Feed.recvTimeout = 1 ∧
    (Feed.run_flow true true s ((false, ev) :: rest)).1 =
      [.connected, .subscribed, .disconnected, .statsPrinted] ∧
    (Feed.run_flow true true s ((false, ev) :: rest)).2 = s := by
  refine ⟨rfl, rfl, rfl, rfl⟩

/-- Whenever save_quote has changed the trades table, it has appended a row
to the quotes table: the trade insert is only ever attempted after the quote
insert succeeded. -/
theorem save_quote_trades_growth (db : Rest.DB) (stats : Rest.Stats)
    (sym : String) (data : Rest.QuoteData) (qf tf : Bool)
    (h : (Rest.save_quote db stats sym data qf tf).db.trades ≠ db.trades) :
    ∃ q, (Rest.save_quote db stats sym data qf tf).db.quotes = db.quotes ++ [q] := by
  rcases data with ⟨sid, bp, bs, ap, asz, tex, tco, lt⟩
  rcases sid with _ | sid
  · exact absurd rfl h
  rcases bp with _ | bp
  · exact absurd rfl h
  rcases bs with _ | bs
  · exact absurd rfl h
  rcases ap with _ | ap
  · exact absurd rfl h
  rcases asz with _ | asz
  · exact absurd rfl h
  rcases tex with _ | tex
  · exact absurd rfl h
  rcases tco with _ | tco
  · exact absurd rfl h
  cases qf with
  | true => exact absurd rfl h
  | false =>
    rcases lt with _ | ⟨u, p, sz, ts, lte, ltc⟩
    · exact absurd rfl h
    rcases p with _ | p
    · exact absurd rfl h
    rcases sz with _ | sz
    · exact absurd rfl h
    rcases lte with _ | lte
    · exact absurd rfl h
    rcases ltc with _ | ltc
    · exact absurd rfl h
    rcases u with _ | u
    · cases tf with
      | true => exact absurd rfl h
      | false => exact ⟨_, rfl⟩
    · simp only [Rest.save_quote, Rest.insertQuote, Rest.insertTrade,
        Rest.isDupTrade] at h ⊢
      cases hdup : db.trades.any fun t => t.trade_uuid == some u with
      | true => simp [hdup] at h ⊢
      | false =>
        cases tf with
        | true => simp [hdup] at h ⊢
        | false => simp [hdup] at h ⊢

/-- C6 counterexample: the claimed second direction of independence is
impossible — there is no execution of save_quote in which the trades table
changes while the quotes table does not, because the trade insert is only
reached after the quote insert has succeeded and appended its row. -/
theorem C6_trade_without_quote_impossible :
    ¬ ∃ (db : Rest.DB) (stats : Rest.Stats) (sym : String)
        (data : Rest.QuoteData) (qf tf : Bool),
      (Rest.save_quote db stats sym data qf tf).db.trades ≠ db.trades ∧
      (Rest.save_quote db stats sym data qf tf).db.quotes = db.quotes := by
  rintro ⟨db, stats, sym, data, qf, tf, hne, hq⟩
  obtain ⟨q, hgrow⟩ := save_quote_trades_growth db stats sym data qf tf hne
  rw [hgrow] at hq
  simpa using congrArg List.length hq

/-- C6 amended: there is no transactional linkage, but the independence is
one-directional. A quote insert can succeed while the paired trade insert
fails (concrete execution: the quote row is stored, the trade row is not, the
warning is printed and the call still succeeds); in the other direction, the
trades table never grows without the quotes table having grown, because the
trade insert is attempted only after the quote insert succeeded. -/
theorem C6_one_directional_independence :
    ((Rest.save_quote ⟨[], []⟩ ⟨0, 0, 0⟩ "BTC" Ex.quoteT false true).ok = true ∧
     (Rest.save_quote ⟨[], []⟩ ⟨0, 0, 0⟩ "BTC" Ex.quoteT false true).db.quotes =
       [Ex.btcRow] ∧
     (Rest.save_quote ⟨[], []⟩ ⟨0, 0, 0⟩ "BTC" Ex.quoteT false true).db.trades =
       [] ∧
     (Rest.save_quote ⟨[], []⟩ ⟨0, 0, 0⟩ "BTC" Ex.quoteT false true).tradeWarned =
       true) ∧
    (∀ (db : Rest.DB) (stats : Rest.Stats) (sym : String)
      (data : Rest.QuoteData) (qf tf : Bool),
      (Rest.save_quote db stats sym data qf tf).db.trades ≠ db.trades →
      ∃ q, (Rest.save_quote db stats sym data qf tf).db.quotes = db.quotes ++ [q]) := by
  constructor
  · refine ⟨rfl, rfl, rfl, rfl⟩
  · exact save_quote_trades_growth

/-- C6 witness: a concrete execution in which the trades table grew, applied
to the one-directional independence: the quotes table grew as well. -/
theorem C6_one_directional_independence_witness :
    ∃ q, (Rest.save_quote ⟨[], []⟩ ⟨0, 0, 0⟩ "BTC" Ex.quoteT false false).db.quotes =
      [] ++ [q] :=
  C6_one_directional_independence.2 ⟨[], []⟩ ⟨0, 0, 0⟩ "BTC" Ex.quoteT false false
    (by decide)

/-- C2: when the sink reports the duplicate-key failure on the trade
identifier, save_quote treats the call as a success — no error surfaces, the
warning is not printed, the success counter is incremented — and the trades
table is unchanged, so no second row exists; when the sink reports any other
trade-insert failure, the warning diagnostic is printed, and the call is
still not fatal. -/
theorem C2_duplicate_trade_idempotent (db : Rest.DB) (stats : Rest.Stats)
    (sym sid : String) (bp bs ap asz : ℚ) (tex tco : String) (u : String)
    (p sz : ℚ) (ts : Option String) (lte ltc : String) (tf : Bool) :
    (Rest.isDupTrade db (some u) = true →
      (Rest.save_quote db stats sym
        ⟨some sid, some bp, some bs, some ap, some asz, some tex, some tco,
         some ⟨some u, some p, some sz, ts, some lte, some ltc⟩⟩ false tf).ok = true ∧
      (Rest.save_quote db stats sym
        ⟨some sid, some bp, some bs, some ap, some asz, some tex, some tco,
         some ⟨some u, some p, some sz, ts, some lte, some ltc⟩⟩ false tf).db.trades =
        db.trades ∧
      (Rest.save_quote db stats sym
        ⟨some sid, some bp, some bs, some ap, some asz, some tex, some tco,
         some ⟨some u, some p, some sz, ts, some lte, some ltc⟩⟩ false tf).tradeWarned =
        false ∧
      (Rest.save_quote db stats sym
        ⟨some sid, some bp, some bs, some ap, some asz, some tex, some tco,
         some ⟨some u, some p, some sz, ts, some lte, some ltc⟩⟩ false tf).stats =
        { stats with successful := stats.successful + 1 }) ∧
    (Rest.isDupTrade db (some u) = false → tf = true →
      (Rest.save_quote db stats sym
        ⟨some sid, some bp, some bs, some ap, some asz, some tex, some tco,
         some ⟨some u, some p, some sz, ts, some lte, some ltc⟩⟩ false tf).ok = true ∧
      (Rest.save_quote db stats sym
        ⟨some sid, some bp, some bs, some ap, some asz, some tex, some tco,
         some ⟨some u, some p, some sz, ts, some lte, some ltc⟩⟩ false tf).db.trades =
        db.trades ∧
      (Rest.save_quote db stats sym
        ⟨some sid, some bp, some bs, some ap, some asz, some tex, some tco,
         some ⟨some u, some p, some sz, ts, some lte, some ltc⟩⟩ false tf).tradeWarned =
        true) := by
  constructor
  · intro hdup
    simp only [Rest.isDupTrade] at hdup
    simp [Rest.save_quote, Rest.insertQuote, Rest.insertTrade, Rest.isDupTrade,
      hdup]
  · intro hdup htf
    subst htf
    simp only [Rest.isDupTrade] at hdup
    simp [Rest.save_quote, Rest.insertQuote, Rest.insertTrade, Rest.isDupTrade,
      hdup]

/-- C2 witness: re-delivering the trade t1 against a store that already holds
it succeeds without a second row, and a generic trade failure against an
empty store prints the warning and still succeeds. -/
theorem C2_duplicate_trade_idempotent_witness :
    ((Rest.save_quote Ex.dbT ⟨0, 0, 0⟩ "BTC"
        ⟨some "A", some 100, some 1, some 101, some 2, some "t1", some "t2",
         some ⟨some "t1", some 5, some 5, some "buy", some "x", some "y"⟩⟩
        false false).ok = true ∧
     (Rest.save_quote Ex.dbT ⟨0, 0, 0⟩ "BTC"
        ⟨some "A", some 100, some 1, some 101, some 2, some "t1", some "t2",
         some ⟨some "t1", some 5, some 5, some "buy", some "x", some "y"⟩⟩
        false false).db.trades = Ex.dbT.trades ∧
     (Rest.save_quote Ex.dbT ⟨0, 0, 0⟩ "BTC"
        ⟨some "A", some 100, some 1, some 101, some 2, some "t1", some "t2",
         some ⟨some "t1", some 5, some 5, some "buy", some "x", some "y"⟩⟩
        false false).tradeWarned = false ∧
     (Rest.save_quote Ex.dbT ⟨0, 0, 0⟩ "BTC"
        ⟨some "A", some 100, some 1, some 101, some 2, some "t1", some "t2",
         some ⟨some "t1", some 5, some 5, some "buy", some "x", some "y"⟩⟩
        false false).stats = { (⟨0, 0, 0⟩ : Rest.Stats) with successful := 0 + 1 }) ∧
    ((Rest.save_quote ⟨[], []⟩ ⟨0, 0, 0⟩ "BTC"
        ⟨some "A", some 100, some 1, some 101, some 2, some "t1", some "t2",
         some ⟨some "t1", some 5, some 5, some "buy", some "x", some "y"⟩⟩
        false true).ok = true ∧
     (Rest.save_quote ⟨[], []⟩ ⟨0, 0, 0⟩ "BTC"
        ⟨some "A", some 100, some 1, some 101, some 2, some "t1", some "t2",
         some ⟨some "t1", some 5, some 5, some "buy", some "x", some "y"⟩⟩
        false true).db.trades = (⟨[], []⟩ : Rest.DB).trades ∧
     (Rest.save_quote ⟨[], []⟩ ⟨0, 0, 0⟩ "BTC"
        ⟨some "A", some 100, some 1, some 101, some 2, some "t1", some "t2",
         some ⟨some "t1", some 5, some 5, some "buy", some "x", some "y"⟩⟩
        false true).tradeWarned = true) :=
  ⟨(C2_duplicate_trade_idempotent Ex.dbT ⟨0, 0, 0⟩ "BTC" "A" 100 1 101 2 "t1"
      "t2" "t1" 5 5 (some "buy") "x" "y" false).1 (by decide),
   (C2_duplicate_trade_idempotent ⟨[], []⟩ ⟨0, 0, 0⟩ "BTC" "A" 100 1 101 2 "t1"
      "t2" "t1" 5 5 (some "buy") "x" "y" true).2 (by decide) rfl⟩

/-- C3 counterexample: in the poll-cycle scenario where BTC (id A) succeeds
with bid 100 and ask 101 and ETH (id B) times out, the failed counter is 0,
not 1 as claimed — a fetch failure increments no counter, only a save failure
does. -/
theorem C3_poll_cycle_counterexample :
    Rest.collect_all_prices [("BTC", "A"), ("ETH", "B")] ⟨[], []⟩ ⟨0, 0, 0⟩
      Ex.fetchC3 (fun _ => false) (fun _ => false) =
      (⟨[Ex.btcRow], []⟩, ⟨1, 1, 0⟩) ∧
    (Rest.collect_all_prices [("BTC", "A"), ("ETH", "B")] ⟨[], []⟩ ⟨0, 0, 0⟩
      Ex.fetchC3 (fun _ => false) (fun _ => false)).2.failed ≠ 1 :=
  ⟨rfl, by decide⟩

/-- C3 amended: the scenario yields exactly one quote row, the BTC row with
bid 100 and ask 101 (derived mid 100.5 and spread 1), no ETH row, a
successful counter of 1 and a failed counter of 0; and in general a symbol
whose fetch returns nothing is a no-op in the cycle: removing it changes
neither the store nor the statistics, so it never prevents the other symbols
from being fetched and saved. -/
theorem C3_poll_cycle :
    (Rest.collect_all_prices [("BTC", "A"), ("ETH", "B")] ⟨[], []⟩ ⟨0, 0, 0⟩
       Ex.fetchC3 (fun _ => false) (fun _ => false) =
       (⟨[Ex.btcRow], []⟩, ⟨1, 1, 0⟩) ∧
     (Ex.btcRow.bid_price + Ex.btcRow.ask_price) / 2 = 201 / 2 ∧
     Ex.btcRow.ask_price - Ex.btcRow.bid_price = 1) ∧
    (∀ (xs ys : List (String × String)) (s i : String) (db : Rest.DB)
      (stats : Rest.Stats) (fetch : String → Rest.HttpOutcome)
      (qf tf : String → Bool),
      (Rest.fetch_quote i (fetch i)).result = none →
      Rest.collect_all_prices (xs ++ (s, i) :: ys) db stats fetch qf tf =
        Rest.collect_all_prices (xs ++ ys) db stats fetch qf tf) := by
  constructor
  · exact ⟨rfl, by norm_num [Ex.btcRow], by norm_num [Ex.btcRow]⟩
  · intro xs ys s i db stats fetch qf tf h
    unfold Rest.collect_all_prices
    rw [List.foldl_append, List.foldl_append, List.foldl_cons]
    congr 1
    simp [h]

/-- C3 witness: dropping the timed-out ETH symbol from the scenario changes
nothing. -/
theorem C3_poll_cycle_witness :
    Rest.collect_all_prices [("BTC", "A"), ("ETH", "B")] ⟨[], []⟩ ⟨0, 0, 0⟩
      Ex.fetchC3 (fun _ => false) (fun _ => false) =
      Rest.collect_all_prices [("BTC", "A")] ⟨[], []⟩ ⟨0, 0, 0⟩
        Ex.fetchC3 (fun _ => false) (fun _ => false) :=
  C3_poll_cycle.2 [("BTC", "A")] [] "ETH" "B" ⟨[], []⟩ ⟨0, 0, 0⟩ Ex.fetchC3
    (fun _ => false) (fun _ => false) rfl

/-- C9 counterexample: the method field of the request body is
v1/getCurrentQuotes, not getCurrentQuotes as the claim states. -/
theorem C9_method_counterexample :
    (Rest.mkPayload "COINBASE_SPOT_BTC_USD").method = "v1/getCurrentQuotes" ∧
    (Rest.mkPayload "COINBASE_SPOT_BTC_USD").method ≠ "getCurrentQuotes" := by
  constructor
  · rfl
  · decide

/-- C9 amended: every fetch sends exactly one JSON-RPC-style POST — whatever
the response outcome, so no retry happens inside the fetcher — whose body is
jsonrpc 2.0, id 1, method v1/getCurrentQuotes, params the one symbol_id
object, and whose timeout of 5 seconds is within the 5-second bound. -/
theorem C9_single_request (sid : String) (resp : Rest.HttpOutcome) :
    (Rest.fetch_quote sid resp).sent = [(Rest.mkPayload sid, 5)] ∧
    Rest.mkPayload sid = ⟨"2.0", 1, "v1/getCurrentQuotes", [⟨sid⟩]⟩ ∧
    5 ≤ 5 := by
  refine ⟨?_, rfl, le_refl 5⟩
  cases resp with
  | transportFail => rfl
  | jsonBody err r => cases err <;> rfl
